import Mathlib

/-!
Verification of the single-slot coroutine generator and the task/awaiter
samples of the cppcorosample repository.

The C++ coroutine machinery is shallowly embedded as an explicit state
machine.  A coroutine body is a finite list of observable steps (yield a
value, print a line, raise a fault); the promise type of each sample is
embedded as a `PromiseConfig` recording what its `initial_suspend`,
`final_suspend` and `yield_value` hooks return and what its
`unhandled_exception` hook lets escape.  Resuming a generator
(`CoroGenerator::operator bool`, modelled by `advance`) runs the body up to
the next suspension and reports `!done()`; `operator()` (modelled by `read`)
returns the promise's stored `Value`.  Machine `int` values are modelled by
`Int`; no sample input comes near the `int` range, so no wrap-around occurs
in any run considered here.
-/

namespace CoroSample

/-- Result kind of the suspension hooks: `std::suspend_always` or
`std::suspend_never`. -/
inductive SuspendKind where
  | always
  | never

/-- The generator promise state: `T Value` of `CoroGenerator::CoroPromise`.
`none` models the not-yet-assigned (default-initialised) slot. -/
structure CoroPromise (T : Type) where
  Value : Option T

/-- The static configuration a C++ promise type fixes: what
`initial_suspend`, `final_suspend` and `yield_value` return, and what
`unhandled_exception` re-raises towards the resumer (`none` = swallow). -/
structure PromiseConfig where
  initialSuspend : SuspendKind
  finalSuspend : SuspendKind
  yieldSuspend : SuspendKind
  onFault : Nat → Option Nat

/-- One observable step of a generator coroutine body. -/
inductive BodyStep (T : Type) where
  | co_yield (v : T)
  | print (s : String)
  | fault (e : Nat)

/-- `CoroPromise::yield_value`: stores the yielded value into the single
slot (overwriting whatever was there) and returns the configured suspend
object (`suspend_always` in both generator samples). -/
def yield_value {T : Type} (cfg : PromiseConfig) (v : T) (p : CoroPromise T) :
    CoroPromise T × SuspendKind :=
  ({ p with Value := some v }, cfg.yieldSuspend)

/-- How one run of the body (one `resume`) can end. -/
inductive RunOutcome (T : Type) where
  | suspended (rest : List (BodyStep T))
  | completed
  | faulted (e : Nat)

/-- Run the body from the current step until the next suspension point, the
end of the body, or a fault.  Returns the lines printed, the promise state
and the outcome.  A `co_yield` goes through `yield_value`; execution
suspends there exactly when `yield_value` returns `suspend_always`. -/
def runToYield {T : Type} (cfg : PromiseConfig) :
    CoroPromise T → List (BodyStep T) → List String × CoroPromise T × RunOutcome T
  | p, [] => ([], p, .completed)
  | p, .co_yield v :: rest =>
    match yield_value cfg v p with
    | (p', .always) => ([], p', .suspended rest)
    | (p', .never) => runToYield cfg p' rest
  | p, .print s :: rest =>
    let r := runToYield cfg p rest
    (s :: r.1, r.2)
  | p, .fault e :: _ => ([], p, .faulted e)

/-- The externally visible state of one `CoroGenerator`: the remaining body,
the promise, `Handle.done()`, the lines the body printed so far, and whether
`Handle.destroy()` has been called. -/
structure GenState (T : Type) where
  rest : List (BodyStep T)
  promise : CoroPromise T
  isDone : Bool
  output : List String
  destroyed : Bool

/-- `Handle.resume()`: run to the next suspension point.  On completion or
fault the coroutine reaches its final suspend point; with
`final_suspend = suspend_always` the frame is retained and `done()` becomes
true, with `suspend_never` it is released.  On a fault, what escapes to the
resumer is whatever `unhandled_exception` re-raises. -/
def resume {T : Type} (cfg : PromiseConfig) (s : GenState T) : GenState T × Option Nat :=
  match runToYield cfg s.promise s.rest with
  | (out, p', .suspended rest') =>
    ({ s with rest := rest', promise := p', output := s.output ++ out }, none)
  | (out, p', .completed) =>
    match cfg.finalSuspend with
    | .always => ({ s with rest := [], promise := p', isDone := true, output := s.output ++ out }, none)
    | .never =>
      ({ s with rest := [], promise := p', isDone := true, destroyed := true,
                output := s.output ++ out }, none)
  | (out, p', .faulted e) =>
    match cfg.finalSuspend with
    | .always =>
      ({ s with rest := [], promise := p', isDone := true, output := s.output ++ out },
       cfg.onFault e)
    | .never =>
      ({ s with rest := [], promise := p', isDone := true, destroyed := true,
                output := s.output ++ out }, cfg.onFault e)

/-- `CoroGenerator::operator bool`: `Handle.resume(); return !Handle.done();`.
The third component is the exception (if any) that escapes to the resumer. -/
def advance {T : Type} (cfg : PromiseConfig) (s : GenState T) :
    GenState T × Bool × Option Nat :=
  match resume cfg s with
  | (s', esc) => (s', !s'.isDone, esc)

/-- `CoroGenerator::operator()`: return the value most recently stored by
`yield_value` in the promise's slot. -/
def read {T : Type} (s : GenState T) : Option T := s.promise.Value

/-- Calling a generator coroutine: build the frame and consult
`initial_suspend`.  With `suspend_always` (both generator samples) no body
code runs; with `suspend_never` the body would run to its first suspension
already. -/
def construct {T : Type} (cfg : PromiseConfig) (body : List (BodyStep T)) : GenState T :=
  let fresh : GenState T := ⟨body, ⟨none⟩, false, [], false⟩
  match cfg.initialSuspend with
  | .always => fresh
  | .never => (advance cfg fresh).1

/-- `CoroGenerator::~CoroGenerator`: `Handle.destroy()`.  Destroying an
already destroyed handle is the double-free contract violation (`none`). -/
def destroy {T : Type} (s : GenState T) : Option (GenState T) :=
  match s.destroyed with
  | true => none
  | false => some { s with destroyed := true }

/-- The driver loop of both generator samples:
`while (generator) { std::cout << generator() << " "; }`, with `fuel`
bounding the number of `operator bool` calls.  Returns the results of the
`operator bool` calls made and the values read after each true one. -/
def genRun {T : Type} (cfg : PromiseConfig) : Nat → GenState T → List Bool × List (Option T)
  | 0, _ => ([], [])
  | fuel + 1, s =>
    match advance cfg s with
    | (s', true, _) =>
      let r := genRun cfg fuel s'
      (true :: r.1, read s' :: r.2)
    | (_, false, _) => ([false], [])

/-- The values a body yields, in order (a fault ends the body early). -/
def yieldsOf {T : Type} : List (BodyStep T) → List T
  | [] => []
  | .co_yield v :: rest => v :: yieldsOf rest
  | .print _ :: rest => yieldsOf rest
  | .fault _ :: _ => []

/-- True when the body contains no fault step. -/
def faultFree {T : Type} : List (BodyStep T) → Bool
  | [] => true
  | .co_yield _ :: rest => faultFree rest
  | .print _ :: rest => faultFree rest
  | .fault _ :: _ => false

/-- The promise configuration of `CoroGenerator::CoroPromise` in
`03_CoroGenerators.cpp`: `initial_suspend` and `final_suspend` return
`suspend_always`, `yield_value` returns `suspend_always`, and
`unhandled_exception` has an empty body (nothing escapes). -/
def promise03 : PromiseConfig :=
  ⟨.always, .always, .always, fun _ => none⟩

/-- The promise configuration of `CoroGenerator::CoroPromise` in
`02_CoroGenerators.cpp` (the uncommented copy of the same code). -/
def promise02 : PromiseConfig :=
  ⟨.always, .always, .always, fun _ => none⟩

/-- The `for (int i = 1; i <= Amount; i++)` loop of `FibonacciGenerator` in
`03_CoroGenerators.cpp`; `fuel` bounds the iteration count. -/
def fibLoop03 : Nat → Int → Int → Int → Int → List (BodyStep Int)
  | 0, _, _, _, _ => []
  | fuel + 1, i, n1, n2, amount =>
    if i ≤ amount then
      if i < 3 then
        .co_yield 1 :: fibLoop03 fuel (i + 1) n1 n2 amount
      else
        let tmp := n2
        let n2' := n1 + n2
        let n1' := tmp
        .co_yield n2' :: fibLoop03 fuel (i + 1) n1' n2' amount
    else []

/-- The body of `FibonacciGenerator(Amount)` in `03_CoroGenerators.cpp`:
`co_return` at once for a non-positive amount, otherwise the loop starting
from `n1 = 1, n2 = 1, i = 1`.  The loop makes at most `Amount` iterations,
so `Amount.toNat` fuel is exact. -/
def fibonacciGeneratorBody03 (amount : Int) : List (BodyStep Int) :=
  if amount ≤ 0 then []
  else fibLoop03 amount.toNat 1 1 1 amount

/-- The same loop as translated from `02_CoroGenerators.cpp`. -/
def fibLoop02 : Nat → Int → Int → Int → Int → List (BodyStep Int)
  | 0, _, _, _, _ => []
  | fuel + 1, i, n1, n2, amount =>
    if i ≤ amount then
      if i < 3 then
        .co_yield 1 :: fibLoop02 fuel (i + 1) n1 n2 amount
      else
        let tmp := n2
        let n2' := n1 + n2
        let n1' := tmp
        .co_yield n2' :: fibLoop02 fuel (i + 1) n1' n2' amount
    else []

/-- The body of `FibonacciGenerator(Amount)` in `02_CoroGenerators.cpp`. -/
def fibonacciGeneratorBody02 (amount : Int) : List (BodyStep Int) :=
  if amount ≤ 0 then []
  else fibLoop02 amount.toNat 1 1 1 amount

/-- The body of `CountToThree` from the README's generator chapter:
`co_yield 1; co_yield 2; co_yield 3;`. -/
def countToThreeBody : List (BodyStep Int) :=
  [.co_yield 1, .co_yield 2, .co_yield 3]

/-- A task/awaiter of `02_CoroTasks.cpp`: its `await_ready` result and the
lines its `await_suspend` prints. -/
structure CoroAwaiter where
  ready : Bool
  suspendOut : List String

/-- `CoroTaskBase::await_ready`: always `false` (suspension is taken). -/
def CoroTaskBase_await_ready : Bool := false

/-- `CoroTaskA`: inherits `await_ready` from `CoroTaskBase`; its
`await_suspend` prints the Task A marker. -/
def CoroTaskA : CoroAwaiter :=
  ⟨CoroTaskBase_await_ready, ["Suspended Using Task A"]⟩

/-- `CoroTaskB`: inherits `await_ready` from `CoroTaskBase`; its
`await_suspend` prints the Task B marker. -/
def CoroTaskB : CoroAwaiter :=
  ⟨CoroTaskBase_await_ready, ["Suspended Using Task B"]⟩

/-- One step of a task-style coroutine body (`02_CoroTasks.cpp`). -/
inductive TaskStep where
  | print (s : String)
  | co_await (a : CoroAwaiter)

/-- The body of `CoroTest` in `02_CoroTasks.cpp`. -/
def coroTestBody : List TaskStep :=
  [.print ("CoroTest Before Suspend"),
   .co_await CoroTaskA,
   .print ("CoroTest After First Resume"),
   .co_await CoroTaskB,
   .print ("CoroTest After Second Resume")]

/-- Run a task-style body until the next suspension or completion (the
promise of `02_CoroTasks.cpp` has `initial_suspend = suspend_never`, so
invoking `CoroTest` is exactly one such run, and each `Handle.resume()` is
another).  At a `co_await`, `await_ready` is consulted first: if it is
`true` the suspension is skipped, otherwise `await_suspend` prints its
marker and control returns to the resumer.  Returns the printed lines and
`some rest` when suspended, `none` when the body completed. -/
def runUntilSuspend : List TaskStep → List String × Option (List TaskStep)
  | [] => ([], none)
  | .print s :: rest =>
    let r := runUntilSuspend rest
    (s :: r.1, r.2)
  | .co_await a :: rest =>
    if a.ready then runUntilSuspend rest
    else (a.suspendOut, some rest)

/-- The body remaining after `CoroTest` suspends at `co_await CoroTaskA()`. -/
def restAfterTaskA : List TaskStep :=
  [.print ("CoroTest After First Resume"),
   .co_await CoroTaskB,
   .print ("CoroTest After Second Resume")]

/-- The body remaining after `CoroTest` suspends at `co_await CoroTaskB()`. -/
def restAfterTaskB : List TaskStep :=
  [.print ("CoroTest After Second Resume")]

/-- The timer awaitable of the UE5 sample: `WaitSecondsTask` stores the
remaining wait time given to its constructor.  Time is modelled by `Rat`;
the sample only compares it against zero. -/
structure WaitSecondsTask where
  TimeRemaining : Rat

/-- `WaitSecondsTask::await_ready`: `return TimeRemaining <= 0.f;`. -/
def WaitSecondsTask.await_ready (t : WaitSecondsTask) : Bool :=
  t.TimeRemaining ≤ 0

/-- One step of the UE5 coroutine body: a side effect (e.g. setting the
camera fade) or awaiting a `WaitSecondsTask`. -/
inductive UEStep where
  | effect (s : String)
  | co_await (t : WaitSecondsTask)

/-- Run a UE5-style body until the next suspension or completion.  Returns
the side effects performed, the number of tickers registered by
`await_suspend` during this run, and `some rest` when suspended at a
`co_await` (its `await_suspend` registered one core ticker), `none` when
the body completed.  When `await_ready` is `true` the suspension is skipped
entirely: no ticker is registered and the body keeps running. -/
def runUE : List UEStep → List String × Nat × Option (List UEStep)
  | [] => ([], 0, none)
  | .effect s :: rest =>
    let r := runUE rest
    (s :: r.1, r.2)
  | .co_await t :: rest =>
    if t.await_ready then runUE rest
    else ([], 1, some rest)

/-- A body used by a witness below: one print, then two yields. -/
def witnessBody : List (BodyStep Int) :=
  [.print ("hello"), .co_yield 5, .co_yield 6]

theorem runToYield_no_yields {T : Type} (p : CoroPromise T) (body : List (BodyStep T))
    (hf : faultFree body = true) (hy : yieldsOf body = []) :
    ∃ out, runToYield promise03 p body = (out, p, .completed) := by
  induction body generalizing p with
  | nil => exact ⟨[], rfl⟩
  | cons st rest ih =>
    cases st with
    | co_yield v => simp [yieldsOf] at hy
    | print s =>
      obtain ⟨out, hout⟩ := ih p (by simpa [faultFree] using hf) (by simpa [yieldsOf] using hy)
      exact ⟨s :: out, by simp [runToYield, hout]⟩
    | fault e => simp [faultFree] at hf

theorem runToYield_first_yield {T : Type} (p : CoroPromise T) (body : List (BodyStep T))
    (v : T) (vs : List T) (hf : faultFree body = true) (hy : yieldsOf body = v :: vs) :
    ∃ out rest', runToYield promise03 p body = (out, ⟨some v⟩, .suspended rest')
      ∧ faultFree rest' = true ∧ yieldsOf rest' = vs := by
  induction body generalizing p with
  | nil => simp [yieldsOf] at hy
  | cons st rest ih =>
    cases st with
    | co_yield w =>
      simp only [yieldsOf, List.cons.injEq] at hy
      refine ⟨[], rest, ?_, by simpa [faultFree] using hf, hy.2⟩
      simp [runToYield, yield_value, promise03, hy.1]
    | print s =>
      obtain ⟨out, rest', h1, h2, h3⟩ :=
        ih p (by simpa [faultFree] using hf) (by simpa [yieldsOf] using hy)
      exact ⟨s :: out, rest', by simp [runToYield, h1], h2, h3⟩
    | fault e => simp [faultFree] at hf

theorem genRun_succ_true {T : Type} (cfg : PromiseConfig) (fuel : Nat)
    (s s' : GenState T) (esc : Option Nat) (h : advance cfg s = (s', true, esc)) :
    genRun cfg (fuel + 1) s
      = (true :: (genRun cfg fuel s').1, read s' :: (genRun cfg fuel s').2) := by
  simp [genRun, h]

theorem genRun_succ_false {T : Type} (cfg : PromiseConfig) (fuel : Nat)
    (s s' : GenState T) (esc : Option Nat) (h : advance cfg s = (s', false, esc)) :
    genRun cfg (fuel + 1) s = ([false], []) := by
  simp [genRun, h]

theorem resume_of_suspended {T : Type} (s : GenState T) (out : List String)
    (p' : CoroPromise T) (rest' : List (BodyStep T))
    (h : runToYield promise03 s.promise s.rest = (out, p', .suspended rest')) :
    resume promise03 s
      = ({ s with rest := rest', promise := p', output := s.output ++ out }, none) := by
  unfold resume
  rw [h]

theorem resume_of_completed {T : Type} (s : GenState T) (out : List String)
    (p' : CoroPromise T)
    (h : runToYield promise03 s.promise s.rest = (out, p', .completed)) :
    resume promise03 s
      = ({ s with rest := [], promise := p', isDone := true, output := s.output ++ out },
         none) := by
  unfold resume
  rw [h]
  rfl

theorem resume_of_faulted {T : Type} (s : GenState T) (out : List String)
    (p' : CoroPromise T) (e : Nat)
    (h : runToYield promise03 s.promise s.rest = (out, p', .faulted e)) :
    resume promise03 s
      = ({ s with rest := [], promise := p', isDone := true, output := s.output ++ out },
         none) := by
  unfold resume
  rw [h]
  rfl

theorem genRun_yields {T : Type} (vs : List T) :
    ∀ (body : List (BodyStep T)) (p : CoroPromise T) (o : List String),
      faultFree body = true → yieldsOf body = vs →
      genRun promise03 (vs.length + 1) ⟨body, p, false, o, false⟩
        = (List.replicate vs.length true ++ [false], vs.map some) := by
  induction vs with
  | nil =>
    intro body p o hf hy
    obtain ⟨out, hout⟩ := runToYield_no_yields p body hf hy
    have hadv : advance promise03 (⟨body, p, false, o, false⟩ : GenState T)
        = (⟨[], p, true, o ++ out, false⟩, false, none) := by
      unfold advance
      rw [resume_of_completed _ _ _ hout]
      rfl
    rw [show (List.length ([] : List T) + 1) = 0 + 1 from rfl,
        genRun_succ_false promise03 0 _ _ _ hadv]
    simp
  | cons v vs ih =>
    intro body p o hf hy
    obtain ⟨out, rest', h1, h2, h3⟩ := runToYield_first_yield p body v vs hf hy
    have hadv : advance promise03 (⟨body, p, false, o, false⟩ : GenState T)
        = (⟨rest', ⟨some v⟩, false, o ++ out, false⟩, true, none) := by
      unfold advance
      rw [resume_of_suspended _ _ _ _ h1]
      rfl
    rw [show ((v :: vs).length + 1) = (vs.length + 1) + 1 from by simp,
        genRun_succ_true promise03 (vs.length + 1) _ _ _ hadv,
        ih rest' ⟨some v⟩ (o ++ out) h2 h3]
    simp [read, List.replicate_succ]

theorem runToYield_to_first_yield {T : Type} (v : T) (p : CoroPromise T)
    (pre post : List (BodyStep T)) (hf : faultFree pre = true) (hy : yieldsOf pre = []) :
    ∃ out, runToYield promise03 p (pre ++ .co_yield v :: post)
      = (out, ⟨some v⟩, .suspended post) := by
  induction pre generalizing p with
  | nil => exact ⟨[], by simp [runToYield, yield_value, promise03]⟩
  | cons st rest ih =>
    cases st with
    | co_yield w => simp [yieldsOf] at hy
    | print s =>
      obtain ⟨out, hout⟩ := ih p (by simpa [faultFree] using hf) (by simpa [yieldsOf] using hy)
      exact ⟨s :: out, by simp [runToYield, hout]⟩
    | fault e => simp [faultFree] at hf

/-- C1: driving `FibonacciGenerator(10)` with the sample's while loop, the
ten `operator bool` (advance) calls all return true, the ten `operator()`
(read) calls after them yield exactly 1 1 2 3 5 8 13 21 34 55 in order, and
the eleventh advance returns false. -/
theorem fibonacci_ten_run :
    genRun promise03 11 (construct promise03 (fibonacciGeneratorBody03 10))
      = (List.replicate 10 true ++ [false],
         [some 1, some 1, some 2, some 3, some 5, some 8, some 13, some 21, some 34, some 55]) :=
  rfl

/-- C2: for every fault-free generator body, the number of true-returning
advance calls equals the number of values the body yields, the values read
after them are exactly the yielded values in order, and the next advance
after the last yield is the first to return false (the body has then
completed, by falling off the end or by an early co_return, which in this
model is simply the end of the step list). -/
theorem generator_roundtrip {T : Type} (body : List (BodyStep T))
    (hf : faultFree body = true) :
    genRun promise03 ((yieldsOf body).length + 1) (construct promise03 body)
      = (List.replicate (yieldsOf body).length true ++ [false],
         (yieldsOf body).map some) := by
  have hc : construct promise03 body = ⟨body, ⟨none⟩, false, [], false⟩ := rfl
  rw [hc]
  exact genRun_yields (yieldsOf body) body ⟨none⟩ [] hf rfl

theorem generator_roundtrip_witness :
    faultFree witnessBody = true ∧
    genRun promise03 3 (construct promise03 witnessBody)
      = ([true, true, false], [some 5, some 6]) :=
  ⟨rfl, generator_roundtrip witnessBody rfl⟩

/-- C3: `FibonacciGenerator` with a non-positive count yields nothing: the
very first advance returns false, no value is ever read, and nothing
escapes as an error (the empty escape channel stays `none`). -/
theorem fibonacci_nonpositive (n : Int) (h : n ≤ 0) :
    yieldsOf (fibonacciGeneratorBody03 n) = [] ∧
    (advance promise03 (construct promise03 (fibonacciGeneratorBody03 n))).2.1 = false ∧
    (advance promise03 (construct promise03 (fibonacciGeneratorBody03 n))).2.2 = none ∧
    genRun promise03 1 (construct promise03 (fibonacciGeneratorBody03 n)) = ([false], []) := by
  have hb : fibonacciGeneratorBody03 n = [] := by
    simp [fibonacciGeneratorBody03, h]
  rw [hb]
  exact ⟨rfl, rfl, rfl, rfl⟩

theorem fibonacci_nonpositive_witness :
    (-3 : Int) ≤ 0 ∧
    (yieldsOf (fibonacciGeneratorBody03 (-3)) = [] ∧
     (advance promise03 (construct promise03 (fibonacciGeneratorBody03 (-3)))).2.1 = false ∧
     (advance promise03 (construct promise03 (fibonacciGeneratorBody03 (-3)))).2.2 = none ∧
     genRun promise03 1 (construct promise03 (fibonacciGeneratorBody03 (-3))) = ([false], [])) :=
  ⟨by decide, fibonacci_nonpositive (-3) (by decide)⟩

/-- C4: the `CountToThree` generator: advance returns true exactly three
times, the reads after them yield 1, 2, 3 in order, and the fourth advance
returns false. -/
theorem count_to_three_run :
    genRun promise03 4 (construct promise03 countToThreeBody)
      = ([true, true, true, false], [some 1, some 2, some 3]) :=
  rfl

/-- C5: `yield_value` stores the yielded value into the promise's single
slot, overwriting whatever was there, and returns `suspend_always`; hence a
resume that reaches a `co_yield` stops exactly there: the slot then holds
that value and the remainder of the body after the yield is untouched.  At
most one produced value is retained at any time because the slot is that
single `Value` field. -/
theorem yield_stores_and_suspends {T : Type} (v : T) (p : CoroPromise T)
    (pre post : List (BodyStep T)) (hf : faultFree pre = true)
    (hy : yieldsOf pre = []) :
    yield_value promise03 v p = (⟨some v⟩, .always) ∧
    ∃ out, runToYield promise03 p (pre ++ .co_yield v :: post)
      = (out, ⟨some v⟩, .suspended post) :=
  ⟨rfl, runToYield_to_first_yield v p pre post hf hy⟩

theorem yield_stores_and_suspends_witness :
    faultFree ([BodyStep.print ("w")] : List (BodyStep Int)) = true ∧
    yieldsOf ([BodyStep.print ("w")] : List (BodyStep Int)) = [] ∧
    (yield_value promise03 (7 : Int) ⟨some 3⟩ = (⟨some 7⟩, .always) ∧
     ∃ out, runToYield promise03 (⟨some 3⟩ : CoroPromise Int)
         ([BodyStep.print ("w")] ++ .co_yield 7 :: [.co_yield 9])
       = (out, ⟨some 7⟩, .suspended [.co_yield 9])) :=
  ⟨rfl, rfl, yield_stores_and_suspends 7 ⟨some 3⟩ [.print ("w")] [.co_yield 9] rfl rfl⟩

/-- C6: the two-suspension-point `CoroTest` of `02_CoroTasks.cpp`: invoking
it prints the pre-suspend line then the Task A marker and suspends; the
first resume prints the after-first-resume line then the Task B marker and
suspends; the second resume prints the after-second-resume line and the
body completes (`none`), so exactly two resumes reach completion. -/
theorem coro_tasks_two_resumes :
    runUntilSuspend coroTestBody
      = (["CoroTest Before Suspend", "Suspended Using Task A"], some restAfterTaskA) ∧
    runUntilSuspend restAfterTaskA
      = (["CoroTest After First Resume", "Suspended Using Task B"], some restAfterTaskB) ∧
    runUntilSuspend restAfterTaskB
      = (["CoroTest After Second Resume"], none) :=
  ⟨rfl, rfl, rfl⟩

/-- C7: constructing a generator (suspend-first: `initial_suspend` is
`suspend_always`) runs no body code — no output, the whole body still
pending — and destroying it immediately succeeds (`some`, not the
double-free `none`). -/
theorem construct_destroy_safe {T : Type} (body : List (BodyStep T)) :
    (construct promise03 body).output = [] ∧
    (construct promise03 body).rest = body ∧
    destroy (construct promise03 body) = some ⟨body, ⟨none⟩, false, [], true⟩ :=
  ⟨rfl, rfl, rfl⟩

theorem construct_destroy_safe_witness :
    (construct promise03 countToThreeBody).output = [] ∧
    (construct promise03 countToThreeBody).rest = countToThreeBody ∧
    destroy (construct promise03 countToThreeBody)
      = some ⟨countToThreeBody, ⟨none⟩, false, [], true⟩ :=
  construct_destroy_safe countToThreeBody

/-- C8: at a suspension point governed by `WaitSecondsTask`, if the task was
constructed with a non-positive wait time then `await_ready` reports ready
and the suspension is skipped entirely: running the body from the
`co_await` is the same as running the body after it — no ticker is
registered, no suspension is reported to the resumer, the body continues. -/
theorem wait_seconds_ready_skips (t : WaitSecondsTask) (rest : List UEStep)
    (h : t.TimeRemaining ≤ 0) :
    t.await_ready = true ∧ runUE (.co_await t :: rest) = runUE rest := by
  have hr : t.await_ready = true := decide_eq_true h
  refine ⟨hr, ?_⟩
  simp [runUE, hr]

theorem wait_seconds_ready_skips_witness :
    (WaitSecondsTask.mk 0).TimeRemaining ≤ 0 ∧
    ((WaitSecondsTask.mk 0).await_ready = true ∧
     runUE (.co_await (WaitSecondsTask.mk 0) :: [.effect ("fade")])
       = runUE [.effect ("fade")]) :=
  ⟨le_refl 0, wait_seconds_ready_skips ⟨0⟩ [.effect ("fade")] (le_refl 0)⟩

/-- C9: whatever state a generator is resumed from, nothing ever escapes to
the resumer: a fault raised by the body is handed to the promise's
`unhandled_exception` hook, whose empty body re-raises nothing, so the
escape channel of every advance is `none`. -/
theorem unhandled_fault_contained {T : Type} (s : GenState T) :
    (advance promise03 s).2.2 = none := by
  rcases h : runToYield promise03 s.promise s.rest with ⟨out, p', oc⟩
  cases oc with
  | suspended rest' =>
    unfold advance
    rw [resume_of_suspended s out p' rest' h]
  | completed =>
    unfold advance
    rw [resume_of_completed s out p' h]
  | faulted e =>
    unfold advance
    rw [resume_of_faulted s out p' e h]

theorem unhandled_fault_contained_witness :
    (advance promise03 (construct promise03 ([BodyStep.fault 42] : List (BodyStep Int)))).2.2
      = none :=
  unhandled_fault_contained (construct promise03 ([BodyStep.fault 42] : List (BodyStep Int)))

theorem fibLoop_02_eq_03 :
    ∀ (fuel : Nat) (i n1 n2 amount : Int),
      fibLoop02 fuel i n1 n2 amount = fibLoop03 fuel i n1 n2 amount := by
  intro fuel
  induction fuel with
  | zero => intro i n1 n2 amount; rfl
  | succ k ih =>
    intro i n1 n2 amount
    simp only [fibLoop02, fibLoop03, ih]

/-- C10: the uncommented generator sample (`02_CoroGenerators.cpp`) and the
commented one (`03_CoroGenerators.cpp`) define the same program: their
promise configurations are equal, their `FibonacciGenerator` bodies are
equal as functions of the count, and their `main` drives — each running
`FibonacciGenerator(10)` through the while loop — produce equal results. -/
theorem generators_02_03_equivalent :
    promise02 = promise03 ∧
    fibonacciGeneratorBody02 = fibonacciGeneratorBody03 ∧
    genRun promise02 11 (construct promise02 (fibonacciGeneratorBody02 10))
      = genRun promise03 11 (construct promise03 (fibonacciGeneratorBody03 10)) := by
  refine ⟨rfl, ?_, rfl⟩
  funext amount
  simp [fibonacciGeneratorBody02, fibonacciGeneratorBody03, fibLoop_02_eq_03]

end CoroSample
